import Mathlib

/-!
# Verification of the jwt-auth-backend session token lifecycle

Shallow embedding of the TypeScript service (`src/services/authServices.ts`,
`src/app.ts`, entities `User` and `RefreshToken`) into Lean 4.

Modelling conventions:
- Time is a single `Nat` (seconds).  The source mixes `Date` milliseconds and
  JWT seconds; both sides only ever compare instants produced on the same
  scale, so one unified scale is faithful.
- JWT signing/verification (`jsonwebtoken`, an external library) is modelled
  symbolically: a signed token is a constructor carrying the signing secret
  and the payload; `verify` succeeds exactly when the secret matches and the
  embedded expiry has not passed.  Both `JsonWebTokenError` and
  `TokenExpiredError` land in the same `catch` branch of the source
  (`TokenExpiredError extends JsonWebTokenError`), which the model reflects by
  mapping both error kinds to the same response.
- bcrypt (`hashPassword` / `comparePassword`, external collaborators) is
  modelled as an injective tagging function.
- The zod `z.string().email()` check (external library) is modelled as the
  presence of an `@`; no claim depends on the exact email grammar.
- The TypeORM repositories become lists; `findOne`/`findOneBy` become
  `List.find?` with the same `where` predicate, `save` of an existing row
  replaces the row with the same primary key, and `save` of a fresh row
  appends it.  The eager relation load (`relations: ["user"]`) becomes a
  lookup of the record's `userId` in the user list.
- Express responses become a status code plus a body value; `res.json(x)`
  without an explicit status is status 200.  Body values carry exactly the
  data the source serialises, so equality of body values models byte-identical
  JSON responses.
-/

/-- Claims payload of an access token as signed by `generateAccessToken`:
`jwt.sign({ userId, email, roles }, ACCESS_TOKEN_SECRET, { expiresIn: "1m" })`
(plus the library-added `iat`/`exp`). -/
structure AccessPayload where
  userId : String
  email : String
  roles : List String
  iat : Nat
  exp : Nat
deriving DecidableEq, Repr

/-- Claims payload of a refresh token as signed by `generateRefreshTokenData`:
`jwt.sign({ userId, email }, REFRESH_TOKEN_SECRET, { expiresIn: 7*24*60*60 })`. -/
structure RefreshPayload where
  userId : String
  email : String
  iat : Nat
  exp : Nat
deriving DecidableEq, Repr

/-- Symbolic model of an opaque token string.  A string produced by
`jwt.sign` is `accessSigned`/`refreshSigned` with the signing secret and the
payload; any other string is `garbage`. -/
inductive TokenStr where
  | accessSigned (secret : String) (p : AccessPayload)
  | refreshSigned (secret : String) (p : RefreshPayload)
  | garbage (s : String)
deriving DecidableEq, Repr

/-- The two error classes `jwt.verify` can throw; `expired` models
`TokenExpiredError`, `invalid` the other `JsonWebTokenError`s. -/
inductive JwtError where
  | invalid
  | expired
deriving DecidableEq, Repr

/-- `jwt.verify(token, REFRESH_TOKEN_SECRET)`: succeeds iff the token was
signed as a refresh token with the same secret and its `exp` lies in the
future (jsonwebtoken throws `TokenExpiredError` when `now ≥ exp`). -/
def jwtVerifyRefresh (t : TokenStr) (secret : String) (now : Nat) :
    Except JwtError RefreshPayload :=
  match t with
  | .refreshSigned s p =>
      if s = secret then
        if p.exp ≤ now then .error .expired else .ok p
      else .error .invalid
  | _ => .error .invalid

/-- `ACCESS_TOKEN_EXPIRATION = "1m"` in seconds. -/
def ACCESS_TOKEN_EXPIRATION : Nat := 60

/-- `REFRESH_TOKEN_EXPIRATION_SECONDS = 7 * 24 * 60 * 60`. -/
def REFRESH_TOKEN_EXPIRATION_SECONDS : Nat := 7 * 24 * 60 * 60

/-- The two signing secrets read from the environment at module load
(`process.env.ACCESS_TOKEN_SECRET` / `REFRESH_TOKEN_SECRET`). -/
structure Config where
  accessTokenSecret : String
  refreshTokenSecret : String
deriving DecidableEq, Repr

/-- `generateAccessToken(userId, email, roles)`. -/
def generateAccessToken (cfg : Config) (userId email : String)
    (roles : List String) (now : Nat) : TokenStr :=
  .accessSigned cfg.accessTokenSecret
    { userId := userId, email := email, roles := roles,
      iat := now, exp := now + ACCESS_TOKEN_EXPIRATION }

/-- `generateRefreshTokenData(userId, email)`: the signed token string
together with the absolute expiry persisted alongside it. -/
def generateRefreshTokenData (cfg : Config) (userId email : String)
    (now : Nat) : TokenStr × Nat :=
  (.refreshSigned cfg.refreshTokenSecret
     { userId := userId, email := email,
       iat := now, exp := now + REFRESH_TOKEN_EXPIRATION_SECONDS },
   now + REFRESH_TOKEN_EXPIRATION_SECONDS)

/-- bcrypt hashing (external collaborator), modelled injectively. -/
def hashPassword (p : String) : String := "bcrypt$" ++ p

/-- bcrypt comparison (external collaborator). -/
def comparePassword (p h : String) : Bool := h = hashPassword p

/-- The zod email check (external library), modelled as containing `@`. -/
def emailFormatOk (s : String) : Bool := s.toList.any (fun c => c = '@')

/-- The `users` entity (`src/entities/User.ts`), restricted to the columns the
session lifecycle reads or writes. -/
structure UserRec where
  id : String
  email : String
  hashedPassword : String
  firstName : Option String := none
  lastName : Option String := none
  isVerified : Bool := false
  roles : List String := ["user"]
  lastLoginAt : Option Nat := none
deriving DecidableEq, Repr

/-- The `refresh_tokens` entity (`src/entities/RefreshToken.ts`).  `id` is the
generated primary key (a UUID in the source, a `Nat` counter here). -/
structure RefreshRec where
  id : Nat
  token : TokenStr
  userId : String
  expiresAt : Nat
  issuedAt : Nat
  revokedAt : Option Nat := none
  ipAddress : Option String := none
  userAgent : Option String := none
deriving DecidableEq, Repr

/-- The durable state: the two repositories plus the primary-key generator for
fresh refresh-token rows. -/
structure AuthState where
  users : List UserRec
  refreshTokens : List RefreshRec
  nextId : Nat := 0
deriving DecidableEq, Repr

/-- Public principal fields returned by a successful login (never the hash). -/
structure PublicUser where
  id : String
  email : String
  firstName : Option String
  lastName : Option String
  roles : List String
deriving DecidableEq, Repr

/-- Response bodies the service serialises with `res.json`.  Equality of two
`RespBody` values models byte-identical JSON bodies. -/
inductive RespBody where
  | message (s : String)
  | validationErrors (errs : List String)
  | loginSuccess (msg : String) (accessToken refreshToken : TokenStr)
      (user : PublicUser)
  | refreshSuccess (accessToken refreshToken : TokenStr)
deriving DecidableEq, Repr

/-- An HTTP response: status code plus JSON body. -/
structure HttpResponse where
  status : Nat
  body : RespBody
deriving DecidableEq, Repr

/-- `AuthService.login`: validate, look up by email, compare the secret,
stamp `lastLoginAt`, mint the token pair, persist the refresh record. -/
def login (cfg : Config) (st : AuthState) (email password : String)
    (ip ua : Option String) (now : Nat) : HttpResponse × AuthState :=
  if emailFormatOk email && decide (1 ≤ password.length) then
    match st.users.find? (fun u => u.email == email) with
    | none => (⟨401, .message "Invalid credentials"⟩, st)
    | some user =>
      if comparePassword password user.hashedPassword then
        let user' := { user with lastLoginAt := some now }
        let users' := st.users.map (fun u => if u.id == user'.id then user' else u)
        let accessToken := generateAccessToken cfg user.id user.email user.roles now
        let rtData := generateRefreshTokenData cfg user.id user.email now
        let newRec : RefreshRec :=
          { id := st.nextId, token := rtData.1, userId := user.id,
            expiresAt := rtData.2, issuedAt := now,
            ipAddress := ip, userAgent := ua }
        (⟨200, .loginSuccess "Logged in successfully!" accessToken rtData.1
            ⟨user.id, user.email, user.firstName, user.lastName, user.roles⟩⟩,
         { users := users', refreshTokens := st.refreshTokens ++ [newRec],
           nextId := st.nextId + 1 })
      else (⟨401, .message "Invalid credentials"⟩, st)
  else (⟨400, .validationErrors ["login schema"]⟩, st)

/-- `AuthService.getRefreshToken` (the primary implementation, in which the
rotation block is commented out): verify the signature, look the record up by
`userId`, exact token string, `revokedAt IS NULL` and `expiresAt > now`, load
the owning user via the relation, re-check the subject id, then mint a new
access token and echo back the presented refresh token; no store write. -/
def getRefreshToken (cfg : Config) (st : AuthState) (body : Option TokenStr)
    (now : Nat) : HttpResponse × AuthState :=
  match body with
  | none => (⟨400, .message "Refresh Token not provided."⟩, st)
  | some refreshToken =>
    match jwtVerifyRefresh refreshToken cfg.refreshTokenSecret now with
    | .error _ =>
        (⟨401, .message "Invalid or malformed refresh token."⟩, st)
    | .ok decoded =>
      match st.refreshTokens.find? (fun r =>
          r.userId == decoded.userId && r.token == refreshToken &&
          r.revokedAt == none && decide (now < r.expiresAt)) with
      | none =>
          (⟨401, .message
             "Invalid, revoked, or expired refresh token. Please log in again."⟩,
           st)
      | some stored =>
        match st.users.find? (fun u => u.id == stored.userId) with
        | none =>
            (⟨401, .message
               "User associated with refresh token not found or could not be loaded."⟩,
             st)
        | some user =>
          if decoded.userId = stored.userId then
            (⟨200, .refreshSuccess
                (generateAccessToken cfg user.id user.email user.roles now)
                refreshToken⟩,
             st)
          else
            (⟨401, .message "Invalid refresh token payload: User ID mismatch."⟩, st)

/-- `AuthService.logout`: look up an un-revoked record with the exact token
string; if found set `revokedAt = now` and save, else 404. -/
def logout (st : AuthState) (body : Option TokenStr) (now : Nat) :
    HttpResponse × AuthState :=
  match body with
  | none => (⟨400, .message "Refresh Token not provided."⟩, st)
  | some refreshToken =>
    match st.refreshTokens.find? (fun r =>
        r.token == refreshToken && r.revokedAt == none) with
    | some tokenToRevoke =>
        let revoked := { tokenToRevoke with revokedAt := some now }
        (⟨200, .message "Logged out successfully."⟩,
         { st with refreshTokens :=
             st.refreshTokens.map (fun r =>
               if r.id == tokenToRevoke.id then revoked else r) })
    | none =>
        (⟨404, .message "Refresh token not found or already revoked."⟩, st)

/-- Environment variables `ensureEnvVariables` inspects. -/
structure Env where
  accessTokenSecret : Option String
  refreshTokenSecret : Option String
deriving DecidableEq, Repr

/-- Outcome of startup configuration checking: either the thrown error (which
`app.ts` turns into `process.exit(1)`) or success with the console warnings
emitted on the way. -/
inductive StartupResult where
  | fatal (msg : String)
  | ok (warnings : List String)
deriving DecidableEq, Repr

/-- JS truthiness of `process.env[x]`: absent or empty counts as missing. -/
def envVarMissing : Option String → Bool
  | none => true
  | some s => s = ""

/-- `ensureEnvVariables` from `src/app.ts`: throws when a required variable is
missing; when both are present but short it only `console.warn`s (the throw
for that case is commented out) and startup proceeds. -/
def ensureEnvVariables (env : Env) : StartupResult :=
  if envVarMissing env.accessTokenSecret then
    .fatal "Missing required environment variable: ACCESS_TOKEN_SECRET. Please check your .env file."
  else if envVarMissing env.refreshTokenSecret then
    .fatal "Missing required environment variable: REFRESH_TOKEN_SECRET. Please check your .env file."
  else if (env.accessTokenSecret.getD "").length < 32 ||
      (env.refreshTokenSecret.getD "").length < 32 then
    .ok ["WARNING: JWT secrets are too short! Use long, random strings for production."]
  else
    .ok []

/-- Whether startup is fatal (`app.ts` catches the throw and exits). -/
def StartupResult.isFatal : StartupResult → Bool
  | .fatal _ => true
  | .ok _ => false

/-- The refresh token string a response carries, if any. -/
def respRefreshToken : HttpResponse → Option TokenStr
  | ⟨_, .refreshSuccess _ rt⟩ => some rt
  | ⟨_, .loginSuccess _ _ rt _⟩ => some rt
  | _ => none

/-- The access token a response carries, if any. -/
def respAccessToken : HttpResponse → Option TokenStr
  | ⟨_, .refreshSuccess at_ _⟩ => some at_
  | ⟨_, .loginSuccess _ at_ _ _⟩ => some at_
  | _ => none

/-!
## Concrete fixtures

A configuration with two distinct long secrets, a registered user, the state
after that user logs in at time 1000, and derived states used to evaluate the
operations on concrete inputs.
-/

/-- A concrete configuration with two distinct signing secrets. -/
def cfgEx : Config :=
  ⟨"access-secret-0123456789-0123456789", "refresh-secret-0123456789-012345"⟩

/-- A registered user. -/
def uA : UserRec :=
  { id := "u1", email := "a@x.com", hashedPassword := hashPassword "password1" }

/-- Initial state: one user, no refresh tokens. -/
def stA : AuthState := { users := [uA], refreshTokens := [] }

/-- The refresh token string the login at time 1000 issues to `uA`. -/
def rtA : TokenStr := (generateRefreshTokenData cfgEx "u1" "a@x.com" 1000).1

/-- State after `uA` logs in at time 1000. -/
def stLoggedIn : AuthState :=
  (login cfgEx stA "a@x.com" "password1" (some "203.0.113.7") (some "curl/8") 1000).2

/-- State after the issued token is logged out at time 5000. -/
def stRevokedA : AuthState := (logout stLoggedIn (some rtA) 5000).2

/-- `stLoggedIn` with the user promoted to role `admin` after login. -/
def stAdmin : AuthState :=
  { stLoggedIn with
    users := stLoggedIn.users.map (fun u => { u with roles := ["admin"] }) }

/-- A second user for independent scenarios. -/
def uB : UserRec :=
  { id := "u2", email := "b@y.org", hashedPassword := hashPassword "hunter2aa" }

/-- An active stored refresh record for `uB`. -/
def recB : RefreshRec :=
  { id := 7, token := (generateRefreshTokenData cfgEx "u2" "b@y.org" 400).1,
    userId := "u2", expiresAt := 400 + REFRESH_TOKEN_EXPIRATION_SECONDS,
    issuedAt := 400 }

/-- State holding `uB` and its active record. -/
def stB : AuthState := { users := [uB], refreshTokens := [recB], nextId := 8 }

/-- Revocation is preserved from one store to the next: every record of the
old store that is already revoked still exists, with the same primary key and
the same revocation timestamp, in the new store. -/
def revokedPreserved (old new : List RefreshRec) : Prop :=
  ∀ r ∈ old, r.revokedAt ≠ none →
    ∃ r' ∈ new, r'.id = r.id ∧ r'.revokedAt = r.revokedAt

/-!
## Helper lemmas shared by several claims
-/

/-- `getRefreshToken` never writes: every branch of the primary implementation
returns the state it was given (the revoke-and-rotate block is commented out in
the source). -/
theorem getRefreshToken_state_eq (cfg : Config) (st : AuthState)
    (b : Option TokenStr) (now : Nat) :
    (getRefreshToken cfg st b now).2 = st := by
  unfold getRefreshToken
  repeat' split
  all_goals rfl


/-- Inversion of a successful refresh: the signature verified, the store held
a matching active unexpired record, the owning user was found in the user
store, and the response carries an access token minted from that user together
with the presented refresh token. -/
theorem getRefreshToken_success_inv (cfg : Config) (st : AuthState)
    (t : TokenStr) (now : Nat)
    (hs : (getRefreshToken cfg st (some t) now).1.status = 200) :
    ∃ decoded stored user,
      jwtVerifyRefresh t cfg.refreshTokenSecret now = .ok decoded ∧
      st.refreshTokens.find? (fun r =>
        r.userId == decoded.userId && r.token == t &&
        r.revokedAt == none && decide (now < r.expiresAt)) = some stored ∧
      st.users.find? (fun u => u.id == stored.userId) = some user ∧
      (getRefreshToken cfg st (some t) now).1 = ⟨200, .refreshSuccess
        (generateAccessToken cfg user.id user.email user.roles now) t⟩ := by
  unfold getRefreshToken at hs ⊢
  cases hv : jwtVerifyRefresh t cfg.refreshTokenSecret now with
  | error e => simp only [hv] at hs; exact absurd hs (by decide)
  | ok decoded =>
    simp only [hv] at hs ⊢
    cases hf : st.refreshTokens.find? (fun r =>
        r.userId == decoded.userId && r.token == t &&
        r.revokedAt == none && decide (now < r.expiresAt)) with
    | none => simp only [hf] at hs; exact absurd hs (by decide)
    | some stored =>
      simp only [hf] at hs ⊢
      cases hu : st.users.find? (fun u => u.id == stored.userId) with
      | none => simp only [hu] at hs; exact absurd hs (by decide)
      | some user =>
        simp only [hu] at hs ⊢
        by_cases hid : decoded.userId = stored.userId
        · simp only [if_pos hid] at hs ⊢
          exact ⟨decoded, stored, user, rfl, hf, hu, rfl⟩
        · simp only [if_neg hid] at hs; exact absurd hs (by decide)

/-!
## Claim theorems
-/

/-- C10: in the primary implementation a successful `getRefreshToken` call
leaves the whole store unchanged (revokes nothing, creates no record,
modifies no field) and echoes back exactly the refresh token string the
caller presented. -/
theorem C10_refresh_success_frame (cfg : Config) (st : AuthState)
    (t : TokenStr) (now : Nat)
    (hs : (getRefreshToken cfg st (some t) now).1.status = 200) :
    (getRefreshToken cfg st (some t) now).2 = st ∧
    (getRefreshToken cfg st (some t) now).2.refreshTokens = st.refreshTokens ∧
    respRefreshToken (getRefreshToken cfg st (some t) now).1 = some t := by
  refine ⟨getRefreshToken_state_eq cfg st (some t) now,
    by rw [getRefreshToken_state_eq], ?_⟩
  obtain ⟨d, s, u, _, _, _, h4⟩ := getRefreshToken_success_inv cfg st t now hs
  rw [h4]; rfl

/-- C10 witness: the login-issued token refreshed at time 2500 succeeds and
the frame conditions hold there. -/
theorem C10_refresh_success_frame_witness :
    (getRefreshToken cfgEx stLoggedIn (some rtA) 2500).1.status = 200 ∧
    ((getRefreshToken cfgEx stLoggedIn (some rtA) 2500).2 = stLoggedIn ∧
     (getRefreshToken cfgEx stLoggedIn (some rtA) 2500).2.refreshTokens =
       stLoggedIn.refreshTokens ∧
     respRefreshToken (getRefreshToken cfgEx stLoggedIn (some rtA) 2500).1 =
       some rtA) :=
  ⟨by decide, C10_refresh_success_frame cfgEx stLoggedIn rtA 2500 (by decide)⟩

/-- C1 counterexample: the token issued by the login at time 1000 is accepted
by `getRefreshToken` at time 2000 and again, unchanged, at time 3000 — the
second presentation of the same original token string succeeds instead of
failing with the generic 401. -/
theorem C1_counterexample_second_refresh_succeeds :
    respRefreshToken
      (login cfgEx stA "a@x.com" "password1" (some "203.0.113.7")
        (some "curl/8") 1000).1 = some rtA ∧
    (getRefreshToken cfgEx stLoggedIn (some rtA) 2000).1.status = 200 ∧
    (getRefreshToken cfgEx
      (getRefreshToken cfgEx stLoggedIn (some rtA) 2000).2
      (some rtA) 3000).1.status = 200 := by
  decide

/-- C1 amended: the primary implementation applies the reuse policy, not
rotation: a successful refresh leaves the store unchanged, returns the very
token string that was presented, and a second call presenting the same
original token string succeeds as well. -/
theorem C1_amended_refresh_reusable (cfg : Config) (st : AuthState)
    (t : TokenStr) (now : Nat)
    (hs : (getRefreshToken cfg st (some t) now).1.status = 200) :
    (getRefreshToken cfg st (some t) now).2 = st ∧
    respRefreshToken (getRefreshToken cfg st (some t) now).1 = some t ∧
    (getRefreshToken cfg (getRefreshToken cfg st (some t) now).2
      (some t) now).1.status = 200 := by
  obtain ⟨d, s, u, _, _, _, h4⟩ := getRefreshToken_success_inv cfg st t now hs
  refine ⟨getRefreshToken_state_eq cfg st (some t) now, by rw [h4]; rfl, ?_⟩
  rw [getRefreshToken_state_eq]
  exact hs

/-- C1 amended witness: instantiated at the login-issued token at time 2000. -/
theorem C1_amended_refresh_reusable_witness :
    (getRefreshToken cfgEx stLoggedIn (some rtA) 2000).2 = stLoggedIn ∧
    respRefreshToken (getRefreshToken cfgEx stLoggedIn (some rtA) 2000).1 =
      some rtA ∧
    (getRefreshToken cfgEx (getRefreshToken cfgEx stLoggedIn (some rtA) 2000).2
      (some rtA) 2000).1.status = 200 :=
  C1_amended_refresh_reusable cfgEx stLoggedIn rtA 2000 (by decide)

/-- C7 counterexample: two refresh calls with the same token string, executed
at the same instant with the second call observing the post-state of the
first (one admissible serialization of two concurrent requests), both
succeed; the state the first call produces is the initial state, so every
interleaving gives both callers new access tokens. -/
theorem C7_counterexample_concurrent_refreshes_all_succeed :
    (getRefreshToken cfgEx stB (some recB.token) 4000).1.status = 200 ∧
    (getRefreshToken cfgEx
      (getRefreshToken cfgEx stB (some recB.token) 4000).2
      (some recB.token) 4000).1.status = 200 ∧
    (getRefreshToken cfgEx stB (some recB.token) 4000).2 = stB := by
  decide

/-- C7 amended: the primary implementation has no find-then-revoke step at
all — `getRefreshToken` never writes to the store — so concurrent refresh
calls with the same valid token string all succeed: a second call on the
post-state of a successful one returns the identical successful response. -/
theorem C7_amended_no_store_write (cfg : Config) (st : AuthState)
    (b : Option TokenStr) (t : TokenStr) (now : Nat) :
    (getRefreshToken cfg st b now).2 = st ∧
    ((getRefreshToken cfg st (some t) now).1.status = 200 →
      (getRefreshToken cfg (getRefreshToken cfg st (some t) now).2
        (some t) now).1 = (getRefreshToken cfg st (some t) now).1 ∧
      (getRefreshToken cfg (getRefreshToken cfg st (some t) now).2
        (some t) now).1.status = 200) := by
  refine ⟨getRefreshToken_state_eq cfg st b now, fun hs => ?_⟩
  rw [getRefreshToken_state_eq]
  exact ⟨rfl, hs⟩

/-- C7 amended witness: instantiated on the stored record of `uB`. -/
theorem C7_amended_no_store_write_witness :
    (getRefreshToken cfgEx
      (getRefreshToken cfgEx stB (some recB.token) 4100).2
      (some recB.token) 4100).1 =
      (getRefreshToken cfgEx stB (some recB.token) 4100).1 ∧
    (getRefreshToken cfgEx
      (getRefreshToken cfgEx stB (some recB.token) 4100).2
      (some recB.token) 4100).1.status = 200 :=
  (C7_amended_no_store_write cfgEx stB (some recB.token) recB.token 4100).2
    (by decide)

/-- C2 counterexample: two failing refresh inputs — a token with a bad
signature and a well-signed token absent from the store — both yield 401 but
with different response bodies, so the externally visible responses are not
identical across failure causes. -/
theorem C2_counterexample_distinct_failure_bodies :
    (getRefreshToken cfgEx stLoggedIn (some (.garbage "not-a-jwt")) 2000).1.status = 401 ∧
    (getRefreshToken cfgEx stA (some rtA) 2000).1.status = 401 ∧
    (getRefreshToken cfgEx stLoggedIn (some (.garbage "not-a-jwt")) 2000).1 ≠
      (getRefreshToken cfgEx stA (some rtA) 2000).1 := by
  decide

/-- C2 amended: every failing refresh with a provided token returns status
401, and the store-side causes (record absent, revoked, expired in the store,
or subject-id mismatch, all folded into one `findOne` miss) share one
identical body; but the JWT-layer failures and the missing-owner case carry
their own distinct bodies, so the response is one of three fixed 401
responses rather than a single one. -/
theorem C2_amended_failures_are_three_fixed_401s (cfg : Config)
    (st : AuthState) (t : TokenStr) (now : Nat) :
    (getRefreshToken cfg st (some t) now).1.status = 200 ∨
    (getRefreshToken cfg st (some t) now).1 =
      ⟨401, .message "Invalid or malformed refresh token."⟩ ∨
    (getRefreshToken cfg st (some t) now).1 =
      ⟨401, .message "Invalid, revoked, or expired refresh token. Please log in again."⟩ ∨
    (getRefreshToken cfg st (some t) now).1 =
      ⟨401, .message "User associated with refresh token not found or could not be loaded."⟩ := by
  unfold getRefreshToken
  cases hv : jwtVerifyRefresh t cfg.refreshTokenSecret now with
  | error e => simp [hv]
  | ok decoded =>
    cases hf : st.refreshTokens.find? (fun r =>
        r.userId == decoded.userId && r.token == t &&
        r.revokedAt == none && decide (now < r.expiresAt)) with
    | none => simp [hv, hf]
    | some stored =>
      have hpred := List.find?_some hf
      simp only [Bool.and_eq_true, beq_iff_eq, decide_eq_true_eq] at hpred
      have hid : stored.userId = decoded.userId := hpred.1.1.1
      cases hu : st.users.find? (fun u => u.id == stored.userId) with
      | none => simp [hv, hf, hu]
      | some user =>
        rw [hid] at hu
        simp [hv, hf, hu, hid]

/-- C3 counterexample: after the issued token has been revoked by a first
logout, its record still exists in the store, yet a second logout with the
same token string reports 404 instead of the success the claim requires. -/
theorem C3_counterexample_logout_revoked_404 :
    stRevokedA.refreshTokens.any (fun r => r.token == rtA) = true ∧
    (logout stRevokedA (some rtA) 7000).1.status = 404 := by
  decide

/-- C3 amended: `logout` looks up the record with `revokedAt IS NULL` only:
it reports success exactly when a not-yet-revoked record with the presented
token string exists, and reports 404 both when no record exists at all and
when the only matching record is already revoked. -/
theorem C3_amended_logout_finds_active_only (st : AuthState) (t : TokenStr)
    (now : Nat) :
    ((logout st (some t) now).1.status = 200 ↔
      st.refreshTokens.any (fun r => r.token == t && r.revokedAt == none) = true) ∧
    ((logout st (some t) now).1.status = 404 ↔
      st.refreshTokens.any (fun r => r.token == t && r.revokedAt == none) = false) := by
  unfold logout
  cases hf : st.refreshTokens.find? (fun r => r.token == t && r.revokedAt == none) with
  | none =>
    have hany : st.refreshTokens.any (fun r => r.token == t && r.revokedAt == none) = false := by
      rw [← Bool.not_eq_true, List.any_eq_true]
      rintro ⟨x, hx, hpx⟩
      exact (List.find?_eq_none.mp hf x hx) hpx
    simp [hf, hany]
  | some rcd =>
    have hp := List.find?_some hf
    have hany : st.refreshTokens.any (fun r => r.token == t && r.revokedAt == none) = true := by
      rw [List.any_eq_true]
      exact ⟨rcd, List.mem_of_find?_eq_some hf, hp⟩
    simp [hf, hany]

/-- C4: a login with an email matching no stored principal and a login with
an existing email but a wrong secret produce byte-identical error responses:
the same 401 status and the same generic `Invalid credentials` body. -/
theorem C4_login_identical_errors (cfg : Config) (st : AuthState)
    (e1 pw1 e2 pw2 : String) (ip ua : Option String) (now : Nat) (u : UserRec)
    (he1 : emailFormatOk e1 = true) (hp1 : 1 ≤ pw1.length)
    (he2 : emailFormatOk e2 = true) (hp2 : 1 ≤ pw2.length)
    (hmiss : st.users.find? (fun v => v.email == e1) = none)
    (hhit : st.users.find? (fun v => v.email == e2) = some u)
    (hbad : comparePassword pw2 u.hashedPassword = false) :
    (login cfg st e1 pw1 ip ua now).1 = (login cfg st e2 pw2 ip ua now).1 ∧
    (login cfg st e1 pw1 ip ua now).1 = ⟨401, .message "Invalid credentials"⟩ := by
  have c1 : (emailFormatOk e1 && decide (1 ≤ pw1.length)) = true := by
    rw [he1, decide_eq_true hp1]; rfl
  have c2 : (emailFormatOk e2 && decide (1 ≤ pw2.length)) = true := by
    rw [he2, decide_eq_true hp2]; rfl
  unfold login
  rw [c1, c2, hmiss, hhit]
  simp [hbad]

/-- C4 witness: unknown email `c@x.com` versus the registered `a@x.com` with
a wrong password, against the concrete one-user store. -/
theorem C4_login_identical_errors_witness :
    (login cfgEx stA "c@x.com" "password1" none none 42).1 =
      (login cfgEx stA "a@x.com" "wrongpass" none none 42).1 ∧
    (login cfgEx stA "c@x.com" "password1" none none 42).1 =
      ⟨401, .message "Invalid credentials"⟩ :=
  C4_login_identical_errors cfgEx stA "c@x.com" "password1" "a@x.com"
    "wrongpass" none none 42 uA (by decide) (by decide) (by decide) (by decide)
    (by decide) (by decide) (by decide)

/-- C5: when the store holds at most one record per token string (the unique
constraint on the `token` column), a successful `logout` of a token string is
followed only by failing refreshes: every later `getRefreshToken` call
presenting that token string returns 401, since the revoked record no longer
satisfies the `revokedAt IS NULL` lookup. -/
theorem C5_logout_then_refresh_fails (cfg : Config) (st : AuthState)
    (t : TokenStr) (now now2 : Nat)
    (huniq : ∀ r1 ∈ st.refreshTokens, ∀ r2 ∈ st.refreshTokens,
      r1.token = t → r2.token = t → r1.id = r2.id)
    (hs : (logout st (some t) now).1.status = 200) :
    (getRefreshToken cfg (logout st (some t) now).2 (some t) now2).1.status = 401 := by
  unfold logout at hs ⊢
  cases hf : st.refreshTokens.find? (fun r => r.token == t && r.revokedAt == none) with
  | none => simp only [hf] at hs; exact absurd hs (by decide)
  | some rcd =>
    simp only [hf] at hs ⊢
    have hmem := List.mem_of_find?_eq_some hf
    have hp := List.find?_some hf
    simp only [Bool.and_eq_true, beq_iff_eq] at hp
    obtain ⟨htok, hrev⟩ := hp
    unfold getRefreshToken
    cases hv : jwtVerifyRefresh t cfg.refreshTokenSecret now2 with
    | error e => simp [hv]
    | ok decoded =>
      have hfind : (st.refreshTokens.map (fun r =>
          if r.id = rcd.id then { rcd with revokedAt := some now } else r)).find?
          (fun r => r.userId == decoded.userId && r.token == t &&
            r.revokedAt == none && decide (now2 < r.expiresAt)) = none := by
        rw [List.find?_eq_none]
        rintro x hx
        obtain ⟨r, hr, rfl⟩ := List.mem_map.mp hx
        by_cases hidr : r.id = rcd.id
        · simp [hidr]
        · have hrt : r.token ≠ t := fun hrt => hidr (huniq r hr rcd hmem hrt htok)
          simp [hidr, hrt]
      simp [hv, hfind]

/-- C5 witness: logging the issued token out at time 5000 and refreshing it
at time 6000 yields 401 on the concrete one-record store. -/
theorem C5_logout_then_refresh_fails_witness :
    (getRefreshToken cfgEx (logout stLoggedIn (some rtA) 5000).2
      (some rtA) 6000).1.status = 401 :=
  C5_logout_then_refresh_fails cfgEx stLoggedIn rtA 5000 6000
    (by decide) (by decide)

/-- C6: revocation is terminal — whatever `login`, `getRefreshToken` or
`logout` does, every record that was already revoked (non-null `revokedAt`)
is still present afterwards with the same primary key and the same revocation
timestamp; no operation ever clears `revokedAt` (assuming distinct primary
keys, as the database guarantees). -/
theorem C6_revocation_terminal (cfg : Config) (st : AuthState)
    (e pw : String) (ip ua : Option String) (now1 : Nat)
    (b : Option TokenStr) (now2 : Nat) (b2 : Option TokenStr) (now3 : Nat)
    (hids : (st.refreshTokens.map RefreshRec.id).Nodup) :
    revokedPreserved st.refreshTokens
      (login cfg st e pw ip ua now1).2.refreshTokens ∧
    revokedPreserved st.refreshTokens
      (getRefreshToken cfg st b now2).2.refreshTokens ∧
    revokedPreserved st.refreshTokens
      (logout st b2 now3).2.refreshTokens := by
  refine ⟨?_, ?_, ?_⟩
  · intro r hr hrv
    unfold login
    split
    · split
      · exact ⟨r, hr, rfl, rfl⟩
      · split
        · exact ⟨r, List.mem_append_left _ hr, rfl, rfl⟩
        · exact ⟨r, hr, rfl, rfl⟩
    · exact ⟨r, hr, rfl, rfl⟩
  · rw [getRefreshToken_state_eq]
    intro r hr hrv
    exact ⟨r, hr, rfl, rfl⟩
  · intro r hr hrv
    cases b2 with
    | none => exact ⟨r, hr, rfl, rfl⟩
    | some t2 =>
      unfold logout
      cases hf : st.refreshTokens.find? (fun x =>
          x.token == t2 && x.revokedAt == none) with
      | none => simp only [hf]; exact ⟨r, hr, rfl, rfl⟩
      | some rcd =>
        simp only [hf]
        have hmem := List.mem_of_find?_eq_some hf
        have hp := List.find?_some hf
        simp only [Bool.and_eq_true, beq_iff_eq] at hp
        have hne : ¬ (r.id = rcd.id) := by
          intro hEq
          have hreq : r = rcd := List.inj_on_of_nodup_map hids hr hmem hEq
          rw [hreq] at hrv
          exact hrv hp.2
        refine ⟨r, ?_, rfl, rfl⟩
        have hfr : (fun x => if (x.id == rcd.id) = true
            then { rcd with revokedAt := some now3 } else x) r = r := by
          simp [hne]
        exact List.mem_map.mpr ⟨r, hr, hfr⟩

/-- C6 witness: instantiated on the store holding the revoked record from the
concrete logout, with each operation run once on top of it. -/
theorem C6_revocation_terminal_witness :
    revokedPreserved stRevokedA.refreshTokens
      (login cfgEx stRevokedA "a@x.com" "password1" none none 8000).2.refreshTokens ∧
    revokedPreserved stRevokedA.refreshTokens
      (getRefreshToken cfgEx stRevokedA (some rtA) 8000).2.refreshTokens ∧
    revokedPreserved stRevokedA.refreshTokens
      (logout stRevokedA (some rtA) 8000).2.refreshTokens :=
  C6_revocation_terminal cfgEx stRevokedA "a@x.com" "password1" none none 8000
    (some rtA) 8000 (some rtA) 8000 (by decide)

/-- C8 counterexample: with both secrets present but far below 32 characters,
`ensureEnvVariables` returns successfully with a console warning instead of
failing: startup proceeds with weak keys. -/
theorem C8_counterexample_weak_secret_warns_only :
    ensureEnvVariables ⟨some "shortkey", some "tiny"⟩ =
      .ok ["WARNING: JWT secrets are too short! Use long, random strings for production."] ∧
    (ensureEnvVariables ⟨some "shortkey", some "tiny"⟩).isFatal = false := by
  exact ⟨rfl, rfl⟩

/-- C8 amended: startup fails fatally exactly when one of the two signing
secrets is absent (or empty, which JS truthiness treats as absent); a
present-but-short secret only triggers a console warning and startup
continues. -/
theorem C8_amended_fatal_iff_missing (env : Env) :
    (ensureEnvVariables env).isFatal = true ↔
      (envVarMissing env.accessTokenSecret = true ∨
       envVarMissing env.refreshTokenSecret = true) := by
  unfold ensureEnvVariables
  by_cases h1 : envVarMissing env.accessTokenSecret = true
  · simp [h1, StartupResult.isFatal]
  · rw [Bool.not_eq_true] at h1
    by_cases h2 : envVarMissing env.refreshTokenSecret = true
    · simp [h1, h2, StartupResult.isFatal]
    · rw [Bool.not_eq_true] at h2
      by_cases h3 : ((env.accessTokenSecret.getD "").length < 32 ||
          (env.refreshTokenSecret.getD "").length < 32) = true
      · simp [h1, h2, h3, StartupResult.isFatal]
      · rw [Bool.not_eq_true] at h3
        simp [h1, h2, h3, StartupResult.isFatal]

/-- C9: a successful refresh mints the new access token from the owning
principal as it is currently stored in the user store — the user row fetched
via the record's `userId` relation at refresh time — so the embedded roles
are that row's present roles, not roles copied from any previously issued
token. -/
theorem C9_refresh_roles_from_current_user (cfg : Config) (st : AuthState)
    (t : TokenStr) (now : Nat)
    (hs : (getRefreshToken cfg st (some t) now).1.status = 200) :
    ∃ decoded stored user,
      jwtVerifyRefresh t cfg.refreshTokenSecret now = .ok decoded ∧
      st.refreshTokens.find? (fun r =>
        r.userId == decoded.userId && r.token == t &&
        r.revokedAt == none && decide (now < r.expiresAt)) = some stored ∧
      st.users.find? (fun u => u.id == stored.userId) = some user ∧
      respAccessToken (getRefreshToken cfg st (some t) now).1 =
        some (generateAccessToken cfg user.id user.email user.roles now) := by
  obtain ⟨d, s, u, h1, h2, h3, h4⟩ := getRefreshToken_success_inv cfg st t now hs
  exact ⟨d, s, u, h1, h2, h3, by rw [h4]; rfl⟩

/-- C9 witness: the roles are promoted to `admin` in the user store after the
token was issued with `user` roles; the refresh at time 2000 mints an access
token carrying the new `admin` roles. -/
theorem C9_refresh_roles_from_current_user_witness :
    (∃ decoded stored user,
      jwtVerifyRefresh rtA cfgEx.refreshTokenSecret 2000 = .ok decoded ∧
      stAdmin.refreshTokens.find? (fun r =>
        r.userId == decoded.userId && r.token == rtA &&
        r.revokedAt == none && decide (2000 < r.expiresAt)) = some stored ∧
      stAdmin.users.find? (fun u => u.id == stored.userId) = some user ∧
      respAccessToken (getRefreshToken cfgEx stAdmin (some rtA) 2000).1 =
        some (generateAccessToken cfgEx user.id user.email user.roles 2000)) ∧
    respAccessToken (getRefreshToken cfgEx stAdmin (some rtA) 2000).1 =
      some (generateAccessToken cfgEx "u1" "a@x.com" ["admin"] 2000) :=
  ⟨C9_refresh_roles_from_current_user cfgEx stAdmin rtA 2000 (by decide),
   by decide⟩
